import Mathlib

/-!
Shallow embedding of the LiDAR processing backend
(`backend/app/services/lidar_pipeline.py`, `pnoa_indexer.py`, `tile_cache.py`
and the ORM models in `backend/app/models/lidar_models.py`).

Conventions used throughout:
* Python `None` is `Option.none`; a nullable text column is `Option String`.
* Python string truthiness (`if s:` treats both `None` and `""` as false) is
  modelled explicitly wherever the source relies on it.
* numpy float rasters are modelled as grids of `Option ℚ`: `none` stands for
  NaN, `some q` for an ordinary value.  The properties proved here (signs,
  zeroing of NaN cells) are insensitive to floating-point rounding, so ℚ is a
  faithful carrier for them.
* External collaborators (the PDAL toolkit, scipy's smoothing filter, the
  skimage watershed, HTTP requests, object storage) are modelled as explicit
  oracle parameters or as faithful functional models of their documented
  contracts; every branch of the repository's own control flow is kept.
-/

/-! ## Job records (`lidar_models.py` / `LidarProcessingJob`) -/

/-- `JobStatus` enumeration from `lidar_models.py`. -/
inductive JobStatus where
  | pending
  | queued
  | processing
  | completed
  | failed
deriving DecidableEq, Repr

/-- The mutable columns of a `LidarProcessingJob` row that the pipeline
touches.  `parcel_id` and `tenant_id` are `nullable=False` in the schema, so
they are plain `String`s; the nullable text columns are `Option String`.
Timestamps are abstracted to `Option Nat` ticks. -/
structure Job where
  status : JobStatus
  progress : Int
  status_message : Option String
  error_message : Option String
  started_at : Option Nat
  completed_at : Option Nat
  tileset_url : Option String
  tree_count : Option Int
  point_count : Option Int
  tenant_id : String
  parcel_id : String
deriving DecidableEq, Repr

/-- Python string-or: `a or b` where an empty string and `None` are falsy. -/
def pyOrStr : Option String → Option String → Option String
  | some s, b => if s = "" then b else some s
  | none, b => b

/-- Truthiness of an optional string in Python (`if error:`). -/
def pyTruthy : Option String → Bool
  | some s => s ≠ ""
  | none => false

/-- `LidarPipeline.update_job_status` (lidar_pipeline.py:68-94), acting on a
found job row.  It overwrites `status`, `progress` and `status_message`
unconditionally, writes `error_message` only when the `error` argument is
truthy, stamps `started_at` on the first transition to `processing` and
`completed_at` on terminal statuses. -/
def update_job_status (job : Job) (status : JobStatus) (progress : Int)
    (message : String) (error : Option String) (now : Nat) : Job :=
  let job := { job with
    status := status
    progress := progress
    status_message := some message }
  let job := if pyTruthy error then { job with error_message := error } else job
  let job :=
    if status = JobStatus.processing ∧ job.started_at = none then
      { job with started_at := some now }
    else job
  if status = JobStatus.completed ∨ status = JobStatus.failed then
    { job with completed_at := some now }
  else job

/-! ## Phase A ingest pipeline (`lidar_pipeline.py:174-232`) -/

/-- A stage of the declarative PDAL pipeline built by `phase_a_ingest`. -/
inductive PdalStage where
  | readersLas (filename : String)
  | filtersCrop (polygon : String)
  | filtersOutlier (method : String) (mean_k : Nat) (multiplier : ℚ)
  | filtersElm
  | writersLas (filename : String) (compression : String)
deriving DecidableEq, Repr

/-- The PDAL pipeline JSON built by `phase_a_ingest` (lidar_pipeline.py:201-226).
The stage list is built unconditionally: there is no branch on the geometry,
so the crop stage is always present, whatever `geometry_wkt` is. -/
def phase_a_pipeline (input_laz cropped_laz : String) (geometry_wkt : String) :
    List PdalStage :=
  [ PdalStage.readersLas input_laz,
    PdalStage.filtersCrop geometry_wkt,
    PdalStage.filtersOutlier "statistical" 12 2,
    PdalStage.filtersElm,
    PdalStage.writersLas cropped_laz "laszip" ]

/-- The geometry string that `process_uploaded_file` (lidar_pipeline.py:678)
hands to `LidarPipeline.process`: `geometry_wkt or ""`, i.e. the empty string
when the optional geometry is `None` or empty. -/
def process_uploaded_file_wkt (geometry_wkt : Option String) : String :=
  match pyOrStr geometry_wkt (some "") with
  | some s => s
  | none => ""

/-! ## Canopy height model (`lidar_pipeline.py:347-362`) -/

/-- Elementwise `dsm - dtm` with numpy NaN propagation (`none` is NaN). -/
def npSub : Option ℚ → Option ℚ → Option ℚ
  | some x, some y => some (x - y)
  | _, _ => none

/-- `chm[chm < 0] = 0` on one cell: numpy's `NaN < 0` is false, so a NaN cell
is left untouched by this mask. -/
def npZeroNeg : Option ℚ → Option ℚ
  | some x => if x < 0 then some 0 else some x
  | none => none

/-- `chm[np.isnan(chm)] = 0` on one cell. -/
def npNanToZero : Option ℚ → ℚ
  | some x => x
  | none => 0

/-- The CHM computation of `phase_c_tree_segmentation` step 3
(lidar_pipeline.py:355-357): `chm = dsm - dtm; chm[chm < 0] = 0;
chm[np.isnan(chm)] = 0`, cell by cell over an `m × n` grid. -/
def computeCHM {m n : Nat} (dsm dtm : Fin m → Fin n → Option ℚ) :
    Fin m → Fin n → ℚ :=
  fun r c => npNanToZero (npZeroNeg (npSub (dsm r c) (dtm r c)))

/-! ## Tree segmentation (`lidar_pipeline.py:364-420`)

The smoothing step delegates to `scipy.ndimage.gaussian_filter`, a discrete
convolution with a fixed non-negative kernel; it is modelled as convolution
with an arbitrary kernel parameter `K`.  The crown delineation delegates to
`skimage.segmentation.watershed`; it is modelled as an arbitrary function
parameter `wshed` receiving exactly the arguments the source passes
(`-chm_smooth`, the marker raster, the mask `chm_smooth > 0`).  The theorems
below hold for every choice of these collaborators. -/

/-- All grid coordinates of an `m × n` raster, row-major. -/
def gridCoords (m n : Nat) : List (Fin m × Fin n) :=
  (List.finRange m).flatMap fun r => (List.finRange n).map fun c => (r, c)

/-- Discrete convolution of an `m × n` raster with kernel `K`; model of
`scipy.ndimage.gaussian_filter(img, sigma=1)` for an unspecified kernel. -/
def convolve {m n : Nat} (K : Int → Int → ℚ) (img : Fin m → Fin n → ℚ) :
    Fin m → Fin n → ℚ :=
  fun r c => ∑ r' : Fin m, ∑ c' : Fin n,
    K ((r : Int) - (r' : Int)) ((c : Int) - (c' : Int)) * img r' c'

/-- Model of `skimage.feature.peak_local_max(img, min_distance, threshold_abs)`
following its documented contract: returned peaks are coordinates whose value
is strictly greater than `threshold_abs` and maximal in the square
neighbourhood of Chebyshev radius `min_distance`. -/
def peak_local_max {m n : Nat} (img : Fin m → Fin n → ℚ)
    (min_distance : Nat) (threshold_abs : ℚ) : List (Fin m × Fin n) :=
  (gridCoords m n).filter fun p =>
    decide (threshold_abs < img p.1 p.2) &&
    decide (∀ q : Fin m × Fin n,
      ((q.1 : Int) - (p.1 : Int)).natAbs ≤ min_distance →
      ((q.2 : Int) - (p.2 : Int)).natAbs ≤ min_distance →
      img q.1 q.2 ≤ img p.1 p.2)

/-- Python's `round(x)` to an integer: round half to even. -/
def pyRoundInt (q : ℚ) : Int :=
  let f := Int.floor q
  let r := q - (f : ℚ)
  if r < 1 / 2 then f
  else if 1 / 2 < r then f + 1
  else if Even f then f else f + 1

/-- Python's `round(x, 2)`: round half to even at two decimals (exact on the
ℚ carrier; the binary-float rounding of the original is value-equal wherever
the claims below look at it). -/
def pyRound2 (q : ℚ) : ℚ := (pyRoundInt (q * 100) : ℚ) / 100

/-- One detected tree (lidar_pipeline.py:408-417).  `crown_diameter` is the
determined quantity `2 * Real.sqrt (crown_area / π)`; being irrational-valued
it is carried here by `crown_area` (and `crown_pixels`) from which it is
computed. -/
structure DetectedTree where
  tree_id : String
  x : ℚ
  y : ℚ
  height : ℚ
  crown_pixels : Nat
  crown_area : ℚ
deriving DecidableEq, Repr

/-- Steps 4-6 of `phase_c_tree_segmentation` (lidar_pipeline.py:364-420),
from the CHM raster to the detected-tree list:
threshold at `min_height`, smooth, find peaks with
`min_distance = int(search_radius / chm_resolution)` and
`threshold_abs = min_height`, seed one marker per peak, run the watershed on
the negated smoothed raster masked to positive cells, and emit one record per
peak with position recovered through the affine transform
(`ta, tc, te, tf` are `transform.a`, `transform.c`, `transform.e`,
`transform.f`). -/
def phase_c_detected_trees {m n : Nat} (K : Int → Int → ℚ)
    (wshed : (Fin m → Fin n → ℚ) → (Fin m → Fin n → Nat) →
      (Fin m → Fin n → Bool) → Fin m → Fin n → Nat)
    (chm : Fin m → Fin n → ℚ)
    (min_height search_radius chm_resolution : ℚ)
    (ta tc te tf : ℚ) : List DetectedTree :=
  let chm_masked : Fin m → Fin n → ℚ :=
    fun r c => if min_height ≤ chm r c then chm r c else 0
  let chm_smooth := convolve K chm_masked
  let min_distance := (Int.floor (search_radius / chm_resolution)).toNat
  let coordinates := peak_local_max chm_smooth min_distance min_height
  let markers : Fin m → Fin n → Nat := fun r c =>
    match coordinates.findIdx? (fun p => p = (r, c)) with
    | some i => i + 1
    | none => 0
  let labels := wshed (fun r c => -chm_smooth r c) markers
    (fun r c => decide (0 < chm_smooth r c))
  coordinates.enum.map fun ic : Nat × (Fin m × Fin n) =>
    let idx := ic.1 + 1
    let row := ic.2.1
    let col := ic.2.2
    let px_x := tc + ((col.val : Nat) : ℚ) * ta
    let px_y := tf + ((row.val : Nat) : ℚ) * te
    let height := chm row col
    let crown_pixels := ((gridCoords m n).filter fun q => labels q.1 q.2 = idx).length
    let crown_area := (crown_pixels : ℚ) * chm_resolution ^ 2
    { tree_id := "tree_" ++ toString idx
      x := px_x
      y := px_y
      height := pyRound2 height
      crown_pixels := crown_pixels
      crown_area := pyRound2 crown_area }

/-! ## Final point count (`lidar_pipeline.py:464-474`) -/

/-- `LidarPipeline._count_points`: choose `colored_laz or cropped_laz`
(Python string-or), return 0 when the choice is falsy or the file is absent,
otherwise read `metadata['metadata']['readers.las']['count']` with the chained
`.get(..., {})` defaults collapsing to 0 when the count entry is missing.
`existsOnDisk` models `os.path.exists`; `metadata_count` models the metadata
lookup of the executed PDAL read pipeline. -/
def count_points (colored_laz cropped_laz : Option String)
    (existsOnDisk : String → Bool) (metadata_count : String → Option Nat) : Nat :=
  match pyOrStr colored_laz cropped_laz with
  | none => 0
  | some source =>
    if source = "" then 0
    else if existsOnDisk source then (metadata_count source).getD 0
    else 0

/-! ## Coverage index (`pnoa_indexer.py`)

`LidarCoverageIndex` rows live in PostGIS; the spatial predicate
`ST_Intersects` is modelled as an arbitrary boolean parameter `intersects`
over the stored footprint text and the query text, and the table as the list
of its rows in insertion order. -/

/-- A row of `lidar_coverage_index` (lidar_models.py:25-54), restricted to the
columns `find_coverage` touches. -/
structure CoverageTile where
  tile_name : String
  source : String
  flight_year : Option Int
  point_density : Option ℚ
  laz_url : String
  geometry : String
deriving DecidableEq, Repr

/-- SQL `key DESC NULLS LAST` as a boolean total preorder on optional keys:
larger values first, `NULL`s after every value. -/
def descNullsLastLE {α : Type} [LinearOrder α] : Option α → Option α → Bool
  | some x, some y => decide (y ≤ x)
  | some _, none => true
  | none, some _ => false
  | none, none => true

/-- The `ORDER BY flight_year DESC NULLS LAST, point_density DESC NULLS LAST`
comparator of `find_coverage` (pnoa_indexer.py:82-85), lexicographic on the
two keys. -/
def coverage_le (a b : CoverageTile) : Bool :=
  if a.flight_year = b.flight_year then
    descNullsLastLE a.point_density b.point_density
  else
    descNullsLastLE a.flight_year b.flight_year

/-- `PNOAIndexer.find_coverage` (pnoa_indexer.py:53-104): filter the table by
footprint intersection, restrict to `source` only when that argument is truthy
(Python: `if source:` — the empty string does not restrict), and sort by the
year/density comparator.  The row-to-dict projection of the source keeps every
field used here, so rows are returned directly. -/
def find_coverage (db : List CoverageTile) (intersects : String → String → Bool)
    (geometry_wkt : String) (source : Option String) : List CoverageTile :=
  let q := db.filter fun t => intersects t.geometry geometry_wkt
  let q :=
    match source with
    | some s => if s = "" then q else q.filter fun t => t.source == s
    | none => q
  q.mergeSort coverage_le

/-- `PNOAIndexer.has_coverage` (pnoa_indexer.py:106-111). -/
def has_coverage (db : List CoverageTile) (intersects : String → String → Bool)
    (geometry_wkt : String) : Bool :=
  (find_coverage db intersects geometry_wkt none).length > 0

/-- `PNOAIndexer.get_best_tile` (pnoa_indexer.py:113-137): query restricted to
`prefer_source`; on an empty result with a truthy `prefer_source`, fall back
to the unrestricted query; return the head, or `none` on an empty list. -/
def get_best_tile (db : List CoverageTile) (intersects : String → String → Bool)
    (geometry_wkt : String) (prefer_source : Option String) : Option CoverageTile :=
  let coverage := find_coverage db intersects geometry_wkt prefer_source
  let coverage :=
    if coverage.isEmpty ∧ pyTruthy prefer_source then
      find_coverage db intersects geometry_wkt none
    else coverage
  coverage.head?

/-- The ordering the specification asks of `find_coverage` results on the
density key: higher densities first, `NULL` densities last. -/
def density_order (a b : CoverageTile) : Prop :=
  match a.point_density, b.point_density with
  | some da, some db' => db' ≤ da
  | some _, none => True
  | none, some _ => False
  | none, none => True

/-- The ordering the specification asks of `find_coverage` results: flight
year descending with `NULL` years last, ties broken by point density
descending with `NULL` densities last. -/
def coverage_order (a b : CoverageTile) : Prop :=
  match a.flight_year, b.flight_year with
  | some ya, some yb => yb < ya ∨ (ya = yb ∧ density_order a b)
  | some _, none => True
  | none, some _ => False
  | none, none => density_order a b

/-! ## Tile cache (`tile_cache.py`)

The cache table rows are kept as a list in insertion order (`query(...).first()`
returns the first matching row).  Network and object-storage effects are
oracle parameters (`Except.error e` models the call raising with message `e`),
and the attempted transfers are reported as an event trace. -/

/-- Modelled from the spec: the `LidarTileCache` ORM class is imported by
`app/models/__init__.py` and used throughout `tile_cache.py`, but its class
definition is absent from the sources.  Following spec.md §3 (CachedTile):
identity is the tile name derived from the download locator; state is one of
`downloading`, `complete`, `failed` (column `is_complete`); byte size,
cached-object locator (bucket and key) and an access counter are recorded.
The spec states no uniqueness constraint on the identity column ("at most one
complete row per identity" is an invariant, not a schema constraint), and a
new row's access counter starts at 0. -/
structure CacheRow where
  tile_name : String
  source_url : String
  minio_bucket : String
  minio_key : String
  is_complete : String
  access_count : Nat
  file_size_bytes : Option Nat
deriving DecidableEq, Repr

/-- Transfers attempted by the tile cache service. -/
inductive CacheEvent where
  | originDownload (url : String)
  | cacheDownload (bucket key : String)
  | cacheUpload (bucket key : String)
deriving DecidableEq, Repr

/-- Split a character list on a single separator character (the semantics of
Python's `str.split(sep)` for a one-character separator). -/
def splitOnChar (sep : Char) : List Char → List (List Char)
  | [] => [[]]
  | c :: cs =>
    let r := splitOnChar sep cs
    if c = sep then [] :: r
    else
      match r with
      | [] => [[c]]
      | h :: t => (c :: h) :: t

/-- Join character lists with a separator character (Python's
`sep.join(...)`). -/
def joinWithChar (sep : Char) : List (List Char) → List Char
  | [] => []
  | [l] => l
  | l :: ls => l ++ sep :: joinWithChar sep ls

/-- `os.path.basename`: the part after the last slash. -/
def basenameChars (s : List Char) : List Char :=
  (splitOnChar '/' s).getLastD s

/-- `pathlib.Path(filename).stem`: strip the final extension, keeping a name
that consists only of a leading dot intact. -/
def stemChars (f : List Char) : List Char :=
  match splitOnChar '.' f with
  | [] => f
  | [_] => f
  | parts =>
    let s := joinWithChar '.' parts.dropLast
    if s = [] then f else s

/-- `TileCacheService._extract_tile_name` (tile_cache.py:54-67):
`Path(os.path.basename(urlparse(url).path)).stem`, at character level: the
fragment and query are stripped as `urlparse` does, the basename takes the
last slash-separated segment, and the stem drops the final extension.  For
the PNOA-style locators this service is fed, this coincides with the
library composition of the source. -/
def extract_tile_name (url : String) : String :=
  let cs := url.toList
  let noFrag := (splitOnChar '#' cs).headD cs
  let noQuery := (splitOnChar '?' noFrag).headD noFrag
  String.mk (stemChars (basenameChars noQuery))

/-- `TileCacheService.get_cached_tile` (tile_cache.py:69-92): find the first
row with the given name in state `complete`; on a hit bump its access counter
in place (committed) and return the updated row. -/
def get_cached_tile : List CacheRow → String → List CacheRow × Option CacheRow
  | [], _ => ([], none)
  | r :: rs, tile_name =>
    if r.tile_name = tile_name ∧ r.is_complete = "complete" then
      let r' := { r with access_count := r.access_count + 1 }
      (r' :: rs, some r')
    else
      let p := get_cached_tile rs tile_name
      (r :: p.1, p.2)

/-- `TileCacheService.get_tile_local_path` (tile_cache.py:94-115): fetch the
cached object from the store into the working directory.  `cacheDl` is the
outcome of the storage download. -/
def get_tile_local_path (entry : CacheRow) (work_dir : String)
    (cacheDl : Except String Unit) : List CacheEvent × Except String String :=
  ([CacheEvent.cacheDownload entry.minio_bucket entry.minio_key],
   cacheDl.map fun _ => work_dir ++ "/" ++ entry.tile_name ++ ".laz")

/-- The failure handler of `download_and_cache_tile` (tile_cache.py:180-192):
mark the first row carrying the tile name as `failed`. -/
def mark_failed_first : List CacheRow → String → List CacheRow
  | [], _ => []
  | r :: rs, tile_name =>
    if r.tile_name = tile_name then
      { r with is_complete := "failed" } :: rs
    else r :: mark_failed_first rs tile_name

/-- `TileCacheService.download_and_cache_tile` (tile_cache.py:117-194):
insert (and commit) a `downloading` row, stream from the origin (`originDl`,
yielding the byte size), upload into the cache store (`cacheUl`), then flip
the inserted row to `complete` with the recorded size.  Any failure marks the
first row of that name `failed` and re-raises. -/
def download_and_cache_tile (db : List CacheRow) (source_url work_dir : String)
    (originDl : Except String Nat) (cacheUl : Except String Unit) :
    List CacheRow × List CacheEvent × Except String (String × CacheRow) :=
  let tile_name := extract_tile_name source_url
  let local_path := work_dir ++ "/" ++ tile_name ++ ".laz"
  let minio_key := tile_name ++ ".laz"
  let newRow : CacheRow :=
    { tile_name := tile_name
      source_url := source_url
      minio_bucket := "lidar-source-tiles"
      minio_key := minio_key
      is_complete := "downloading"
      access_count := 0
      file_size_bytes := none }
  let db1 := db ++ [newRow]
  match originDl with
  | Except.error e =>
    (mark_failed_first db1 tile_name,
     [CacheEvent.originDownload source_url], Except.error e)
  | Except.ok file_size =>
    match cacheUl with
    | Except.error e =>
      (mark_failed_first db1 tile_name,
       [CacheEvent.originDownload source_url,
        CacheEvent.cacheUpload "lidar-source-tiles" minio_key],
       Except.error e)
    | Except.ok _ =>
      let done := { newRow with
        is_complete := "complete", file_size_bytes := some file_size }
      (db ++ [done],
       [CacheEvent.originDownload source_url,
        CacheEvent.cacheUpload "lidar-source-tiles" minio_key],
       Except.ok (local_path, done))

/-- `TileCacheService.get_or_download_tile` (tile_cache.py:196-224): derive the
tile name, try the cache, on a hit fetch the cached object, on a miss download
from the origin and cache. -/
def get_or_download_tile (db : List CacheRow) (source_url work_dir : String)
    (cacheDl : Except String Unit) (originDl : Except String Nat)
    (cacheUl : Except String Unit) :
    List CacheRow × List CacheEvent × Except String String :=
  let tile_name := extract_tile_name source_url
  let p := get_cached_tile db tile_name
  match p.2 with
  | some entry =>
    let q := get_tile_local_path entry work_dir cacheDl
    (p.1, q.1, q.2)
  | none =>
    let q := download_and_cache_tile p.1 source_url work_dir originDl cacheUl
    (q.1, q.2.1, (q.2.2).map Prod.fst)

/-- Total access count recorded in the cache table for one tile identity. -/
def total_access (db : List CacheRow) (tile_name : String) : Nat :=
  ((db.filter fun r => r.tile_name = tile_name).map fun r => r.access_count).sum

/-! ## Orion entity publishing and the full pipeline (`lidar_pipeline.py:96-172, 492-587`) -/

/-- Log lines emitted by `_create_orion_entities`. -/
inductive OrionLog where
  | jobNotFound
  | layerCreated (entity_id : String)
  | layerFailedStatus (code : Nat)
  | layerException (msg : String)
  | treeFailedStatus (code : Nat)
  | treeException (msg : String)
deriving DecidableEq, Repr

/-- `LidarPipeline._create_orion_entities` (lidar_pipeline.py:492-587).
`job` is the looked-up job row (`None` logs a warning and returns);
`layerPost` is the outcome of the PointCloudLayer POST and `treePost i` of the
i-th AgriTree POST, where `Except.error e` models the HTTP call raising.  Both
POST sites sit inside `try/except` blocks that log and continue
(lines 541-553 and 572-582); every statement outside those blocks — entity
dict construction over the non-nullable `tenant_id`/`parcel_id` columns,
header construction, list slicing — is total, so the function itself never
raises, whatever the collaborator does. -/
def create_orion_entities (job : Option Job) (job_id : String)
    (detected_trees : List DetectedTree) (detect_trees : Bool)
    (layerPost : Except String Nat) (treePost : Nat → Except String Nat) :
    List OrionLog × Except String Unit :=
  match job with
  | none => ([OrionLog.jobNotFound], Except.ok ())
  | some _ =>
    let layerLog :=
      match layerPost with
      | Except.ok code =>
        if code = 201 ∨ code = 204 then
          [OrionLog.layerCreated ("urn:ngsi-ld:PointCloudLayer:" ++ job_id)]
        else [OrionLog.layerFailedStatus code]
      | Except.error e => [OrionLog.layerException e]
    let treeLogs :=
      if detected_trees ≠ [] ∧ detect_trees then
        (detected_trees.take 100).enum.flatMap fun ie =>
          match treePost ie.1 with
          | Except.ok code =>
            if code = 201 ∨ code = 204 then [] else [OrionLog.treeFailedStatus code]
          | Except.error e => [OrionLog.treeException e]
      else []
    (layerLog ++ treeLogs, Except.ok ())

/-- `LidarPipeline._finalize_job` (lidar_pipeline.py:476-490): write the result
fields into the job row. -/
def finalize_job (job : Job) (tileset_url : String)
    (tree_count point_count : Nat) : Job :=
  { job with
    tileset_url := some tileset_url
    tree_count := some (tree_count : Int)
    point_count := some (point_count : Int) }

/-- The configuration keys `LidarPipeline.process` reads
(lidar_pipeline.py:122-138): `config.get("ndvi_source_url")`,
`config.get("colorize_by", "height")`, `config.get("detect_trees", False)`. -/
structure PipelineConfig where
  ndvi_source_url : Option String
  colorize_by : String
  detect_trees : Bool
deriving DecidableEq, Repr

/-- Outcomes of the external effects `process` performs, in program order.
`Except.error e` models the corresponding Python call raising an exception
whose `str` is `e`; `Except.ok` carries the produced value. -/
structure PipelineOracles where
  ingest : Except String Unit
  fusion : Except String Unit
  segmentation : Except String (List DetectedTree)
  tiling : Except String Unit
  upload : Except String String
  layerPost : Except String Nat
  treePost : Nat → Except String Nat
  count : Except String Nat

/-- The `except` branch of `LidarPipeline.process` (lidar_pipeline.py:166-169):
mark the job failed with `str(e)` as error detail, then re-raise. -/
def pipeline_fail (j : Job) (e : String) (now : Nat) :
    Job × Except String (String × Nat × Nat) :=
  (update_job_status j JobStatus.failed 0 "Pipeline failed" (some e) now,
   Except.error e)

/-- `LidarPipeline.process` (lidar_pipeline.py:96-172) acting on the job row:
the sequence of status updates and phases, each phase consulting its oracle,
every raise funnelled through the single `except` handler `pipeline_fail`.
The returned value models the result dict as
`(tileset_url, tree_count, point_count)`. -/
def pipeline_process (job0 : Job) (job_id : String) (cfg : PipelineConfig)
    (o : PipelineOracles) (now : Nat) : Job × Except String (String × Nat × Nat) :=
  let j := update_job_status job0 JobStatus.processing 0 "Starting pipeline..." none now
  let j := update_job_status j JobStatus.processing 10
    "Downloading and cropping point cloud..." none now
  match o.ingest with
  | Except.error e => pipeline_fail j e now
  | Except.ok _ =>
    let fusionStep :
        Job × Except String Unit :=
      if cfg.colorize_by = "ndvi" ∧ pyTruthy cfg.ndvi_source_url then
        let j := update_job_status j JobStatus.processing 30
          "Applying NDVI colorization..." none now
        (j, o.fusion)
      else
        (update_job_status j JobStatus.processing 30
          "Skipping spectral fusion (no NDVI source)" none now, Except.ok ())
    let j := fusionStep.1
    match fusionStep.2 with
    | Except.error e => pipeline_fail j e now
    | Except.ok _ =>
      let segStep : Job × Except String (List DetectedTree) :=
        if cfg.detect_trees then
          (update_job_status j JobStatus.processing 50
            "Detecting individual trees..." none now, o.segmentation)
        else (j, Except.ok [])
      let j := segStep.1
      match segStep.2 with
      | Except.error e => pipeline_fail j e now
      | Except.ok detected_trees =>
        let j := update_job_status j JobStatus.processing 70
          "Converting to 3D Tiles..." none now
        match o.tiling with
        | Except.error e => pipeline_fail j e now
        | Except.ok _ =>
          let j := update_job_status j JobStatus.processing 90
            "Uploading results..." none now
          match o.upload with
          | Except.error e => pipeline_fail j e now
          | Except.ok tileset_url =>
            let j := update_job_status j JobStatus.processing 95
              "Creating digital twin entities..." none now
            match (create_orion_entities (some j) job_id detected_trees
                cfg.detect_trees o.layerPost o.treePost).2 with
            | Except.error e => pipeline_fail j e now
            | Except.ok _ =>
              match o.count with
              | Except.error e => pipeline_fail j e now
              | Except.ok point_count =>
                let j := finalize_job j tileset_url detected_trees.length point_count
                let j := update_job_status j JobStatus.completed 100
                  "Processing complete!" none now
                (j, Except.ok (tileset_url, detected_trees.length, point_count))

/-! ## Concrete inputs used by witnesses and counterexamples -/

/-- A DSM with one NaN cell and one defined cell. -/
def exDsm : Fin 1 → Fin 2 → Option ℚ := fun _ c => if c = 0 then none else some 1

/-- A constant DTM above `exDsm`, so the defined difference is negative. -/
def exDtm : Fin 1 → Fin 2 → Option ℚ := fun _ _ => some 5

/-- A job row mid-processing that already carries an error detail. -/
def exJob : Job :=
  { status := JobStatus.processing
    progress := 10
    status_message := some "x"
    error_message := some "earlier error"
    started_at := some 1
    completed_at := none
    tileset_url := none
    tree_count := none
    point_count := none
    tenant_id := "t1"
    parcel_id := "p1" }

/-- A job row fresh from submission: no error detail recorded. -/
def exFreshJob : Job :=
  { status := JobStatus.queued
    progress := 0
    status_message := none
    error_message := none
    started_at := none
    completed_at := none
    tileset_url := none
    tree_count := none
    point_count := none
    tenant_id := "t1"
    parcel_id := "p1" }

/-- Oracles for a run in which every external effect succeeds. -/
def exOraclesOk : PipelineOracles :=
  { ingest := Except.ok ()
    fusion := Except.ok ()
    segmentation := Except.ok []
    tiling := Except.ok ()
    upload := Except.ok "https://minio/tilesets/j1"
    layerPost := Except.ok 201
    treePost := fun _ => Except.ok 201
    count := Except.ok 1000 }

/-- Oracles for a run whose ingest phase raises an exception with empty
`str`, as `MemoryError()` or any bare `Exception()` does. -/
def exOraclesEmptyMsgFail : PipelineOracles :=
  { exOraclesOk with ingest := Except.error "" }

/-- Oracles for a run whose ingest phase raises with message "boom". -/
def exOraclesBoomFail : PipelineOracles :=
  { exOraclesOk with ingest := Except.error "boom" }

/-- A configuration with no fusion and no tree detection. -/
def exCfg : PipelineConfig :=
  { ndvi_source_url := none, colorize_by := "height", detect_trees := false }

/-- A configuration with tree detection enabled. -/
def exCfgTrees : PipelineConfig :=
  { ndvi_source_url := none, colorize_by := "height", detect_trees := true }

/-- A concrete detected tree. -/
def exTree : DetectedTree :=
  { tree_id := "tree_1", x := 0, y := 0, height := 10, crown_pixels := 4,
    crown_area := 1 }

/-- Oracles for a successful run in which every entity-graph POST raises. -/
def exOraclesOrionDown : PipelineOracles :=
  { exOraclesOk with
    segmentation := Except.ok [exTree]
    layerPost := Except.error "connection refused"
    treePost := fun _ => Except.error "connection refused" }

/-- A constant smoothing kernel, standing in for the Gaussian. -/
def exKernel : Int → Int → ℚ := fun _ _ => 1

/-- A trivial watershed collaborator on a 2 × 2 grid. -/
def exWshed : (Fin 2 → Fin 2 → ℚ) → (Fin 2 → Fin 2 → Nat) →
    (Fin 2 → Fin 2 → Bool) → Fin 2 → Fin 2 → Nat :=
  fun _ _ _ _ _ => 0

/-- A constant DSM one metre above `exDtm8`. -/
def exDsm8 : Fin 2 → Fin 2 → Option ℚ := fun _ _ => some 1

/-- A flat zero-elevation DTM. -/
def exDtm8 : Fin 2 → Fin 2 → Option ℚ := fun _ _ => some 0

/-- A coverage tile with the newest flight year and highest density. -/
def exTileA : CoverageTile :=
  { tile_name := "A", source := "PNOA", flight_year := some 2023,
    point_density := some 4, laz_url := "https://x/a.laz", geometry := "POLY_A" }

/-- A coverage tile whose source label is the empty string. -/
def exTileB : CoverageTile :=
  { tile_name := "B", source := "", flight_year := some 2020,
    point_density := some 2, laz_url := "https://x/b.laz", geometry := "POLY_B" }

/-- A spatial predicate under which every footprint intersects every query. -/
def exIntersectsAll : String → String → Bool := fun _ _ => true

/-- The row that `download_and_cache_tile` leaves behind after a fully
successful miss: the freshly inserted row flipped to `complete` with the
recorded byte size. -/
def freshCompleteRow (url : String) (size : Nat) : CacheRow :=
  { tile_name := extract_tile_name url
    source_url := url
    minio_bucket := "lidar-source-tiles"
    minio_key := extract_tile_name url ++ ".laz"
    is_complete := "complete"
    access_count := 0
    file_size_bytes := some size }

/-- A cache row left in state `failed` by an earlier download attempt. -/
def exFailedRow : CacheRow :=
  { tile_name := "PNOA_2023_NAV_0001"
    source_url := "https://host/PNOA_2023_NAV_0001.laz"
    minio_bucket := "lidar-source-tiles"
    minio_key := "PNOA_2023_NAV_0001.laz"
    is_complete := "failed"
    access_count := 0
    file_size_bytes := none }

/-! ## Theorems -/

/-- Field-level description of `update_job_status`: `status`, `progress` and
`status_message` are overwritten, `error_message` only when `error` is truthy,
and the result columns are untouched. -/
theorem update_job_status_fields (job : Job) (status : JobStatus) (progress : Int)
    (message : String) (error : Option String) (now : Nat) :
    (update_job_status job status progress message error now).status = status ∧
    (update_job_status job status progress message error now).progress = progress ∧
    (update_job_status job status progress message error now).status_message
      = some message ∧
    (update_job_status job status progress message error now).error_message
      = (if pyTruthy error then error else job.error_message) ∧
    (update_job_status job status progress message error now).tileset_url
      = job.tileset_url ∧
    (update_job_status job status progress message error now).tree_count
      = job.tree_count ∧
    (update_job_status job status progress message error now).point_count
      = job.point_count := by
  simp only [update_job_status]
  split_ifs <;> simp_all

/-- C1: the ingest phase never skips the crop stage.  The claim states that a
job without a crop area bypasses cropping; in the code
`process_uploaded_file(job_id, file_path, geometry_wkt=None)` passes
`geometry_wkt or ""` to `process`, and `phase_a_ingest` builds the PDAL
pipeline with an unconditional `filters.crop` stage, so the run crops to the
empty-string polygon — contradicting both the claim and the source's own
docstring and comments ("if None, use entire file", "skip cropping"). -/
theorem c1_crop_stage_always_built :
    process_uploaded_file_wkt none = "" ∧
    PdalStage.filtersCrop "" ∈
      phase_a_pipeline "input.laz" "cropped.laz" (process_uploaded_file_wkt none) ∧
    (∀ input output geometry_wkt : String,
      PdalStage.filtersCrop geometry_wkt ∈ phase_a_pipeline input output geometry_wkt) := by
  refine ⟨rfl, ?_, ?_⟩ <;> simp [phase_a_pipeline, process_uploaded_file_wkt, pyOrStr]

/-- The computed CHM raster is non-negative at every cell. -/
theorem computeCHM_nonneg {m n : Nat} (dsm dtm : Fin m → Fin n → Option ℚ)
    (r : Fin m) (c : Fin n) : 0 ≤ computeCHM dsm dtm r c := by
  unfold computeCHM npSub npZeroNeg npNanToZero
  rcases dsm r c with _ | s <;> rcases dtm r c with _ | t <;> simp
  split_ifs <;> simp_all

/-- C5: for every DTM/DSM pair the canopy height model is non-negative at
every cell, and equals zero at every cell where the DSM − DTM difference is
negative or where either input is NaN. -/
theorem c5_chm_nonneg_and_zero {m n : Nat} (dsm dtm : Fin m → Fin n → Option ℚ)
    (r : Fin m) (c : Fin n) :
    0 ≤ computeCHM dsm dtm r c ∧
    ((dsm r c = none ∨ dtm r c = none) → computeCHM dsm dtm r c = 0) ∧
    (∀ s t : ℚ, dsm r c = some s → dtm r c = some t → s - t < 0 →
      computeCHM dsm dtm r c = 0) := by
  refine ⟨computeCHM_nonneg dsm dtm r c, ?_, ?_⟩
  · intro h
    unfold computeCHM npSub npZeroNeg npNanToZero
    rcases h with h | h <;> rw [h] <;> rcases dsm r c <;> rcases dtm r c <;> rfl
  · intro s t hs ht hneg
    unfold computeCHM npSub npZeroNeg npNanToZero
    rw [hs, ht]
    simp [show s - t < 0 from hneg]

/-- Witness for C5 at a concrete raster pair: the NaN cell and the
negative-difference cell both map to 0, which is non-negative. -/
theorem c5_witness :
    computeCHM exDsm exDtm 0 0 = 0 ∧ computeCHM exDsm exDtm 0 1 = 0 ∧
    0 ≤ computeCHM exDsm exDtm 0 1 :=
  ⟨(c5_chm_nonneg_and_zero exDsm exDtm 0 0).2.1 (Or.inl rfl),
   (c5_chm_nonneg_and_zero exDsm exDtm 0 1).2.2 1 5 rfl rfl (by norm_num),
   (c5_chm_nonneg_and_zero exDsm exDtm 0 1).1⟩

/-- C9: a status update whose `error` argument is `None` or the empty string
leaves the stored error detail unchanged; `status`, `progress` and
`status_message` are overwritten on every call; and a recorded non-empty
error detail is never cleared by any later update. -/
theorem c9_error_detail_frame (job : Job) (status : JobStatus) (progress : Int)
    (message : String) (error : Option String) (now : Nat) :
    ((error = none ∨ error = some "") →
      (update_job_status job status progress message error now).error_message
        = job.error_message) ∧
    (update_job_status job status progress message error now).status = status ∧
    (update_job_status job status progress message error now).progress = progress ∧
    (update_job_status job status progress message error now).status_message
      = some message ∧
    (∀ e, job.error_message = some e → e ≠ "" →
      ∃ e', (update_job_status job status progress message error now).error_message
        = some e' ∧ e' ≠ "") := by
  obtain ⟨h1, h2, h3, h4, -, -, -⟩ :=
    update_job_status_fields job status progress message error now
  refine ⟨?_, h1, h2, h3, ?_⟩
  · rintro (rfl | rfl) <;> simpa [pyTruthy] using h4
  · intro e he hne
    rw [h4]
    by_cases herr : pyTruthy error = true
    · rcases error with _ | e'
      · simp [pyTruthy] at herr
      · exact ⟨e', by simp [herr], by simpa [pyTruthy] using herr⟩
    · exact ⟨e, by simp [herr, he], hne⟩

/-- Witness for C9 at concrete calls on `exJob` (which carries the non-empty
error detail "earlier error"). -/
theorem c9_witness :
    (update_job_status exJob JobStatus.processing 42 "msg" none 7).error_message
      = exJob.error_message ∧
    (update_job_status exJob JobStatus.completed 90 "done" (some "") 8).error_message
      = exJob.error_message ∧
    (update_job_status exJob JobStatus.processing 42 "msg" none 7).status
      = JobStatus.processing ∧
    (update_job_status exJob JobStatus.processing 42 "msg" none 7).progress = 42 ∧
    (update_job_status exJob JobStatus.processing 42 "msg" none 7).status_message
      = some "msg" ∧
    (∃ e', (update_job_status exJob JobStatus.completed 90 "done" (some "") 8).error_message
      = some e' ∧ e' ≠ "") :=
  ⟨(c9_error_detail_frame exJob JobStatus.processing 42 "msg" none 7).1 (Or.inl rfl),
   (c9_error_detail_frame exJob JobStatus.completed 90 "done" (some "") 8).1 (Or.inr rfl),
   (c9_error_detail_frame exJob JobStatus.processing 42 "msg" none 7).2.1,
   (c9_error_detail_frame exJob JobStatus.processing 42 "msg" none 7).2.2.1,
   (c9_error_detail_frame exJob JobStatus.processing 42 "msg" none 7).2.2.2.1,
   (c9_error_detail_frame exJob JobStatus.completed 90 "done" (some "") 8).2.2.2.2
     "earlier error" rfl (by decide)⟩

/-- C10: `_count_points` is total at its interface: it returns 0 when both
file paths are unset or when the chosen file is absent on disk, and otherwise
returns the metadata count, defaulting to 0 when the count entry is missing. -/
theorem c10_count_points_total (colored_laz cropped_laz : Option String)
    (existsOnDisk : String → Bool) (metadata_count : String → Option Nat) :
    (colored_laz = none → cropped_laz = none →
      count_points colored_laz cropped_laz existsOnDisk metadata_count = 0) ∧
    (∀ src, pyOrStr colored_laz cropped_laz = some src → existsOnDisk src = false →
      count_points colored_laz cropped_laz existsOnDisk metadata_count = 0) ∧
    (∀ src, pyOrStr colored_laz cropped_laz = some src → src ≠ "" →
      existsOnDisk src = true →
      count_points colored_laz cropped_laz existsOnDisk metadata_count
        = (metadata_count src).getD 0) := by
  unfold count_points
  refine ⟨?_, ?_, ?_⟩
  · rintro rfl rfl; rfl
  · intro src h hex; rw [h]; simp [hex]
  · intro src h hne hex; rw [h]; simp [hne, hex]

/-- Witness for C10 at concrete inputs: missing count entry defaults to 0; a
present count is returned; an absent file yields 0. -/
theorem c10_witness :
    count_points none (some "f.laz") (fun _ => true) (fun _ => none) = 0 ∧
    count_points (some "c.laz") none (fun _ => true) (fun _ => some 42) = 42 ∧
    count_points (some "c.laz") none (fun _ => false) (fun _ => some 42) = 0 ∧
    count_points none none (fun _ => true) (fun _ => some 42) = 0 :=
  ⟨(c10_count_points_total none (some "f.laz") (fun _ => true) (fun _ => none)).2.2
      "f.laz" rfl (by decide) rfl,
   (c10_count_points_total (some "c.laz") none (fun _ => true) (fun _ => some 42)).2.2
      "c.laz" rfl (by decide) rfl,
   (c10_count_points_total (some "c.laz") none (fun _ => false) (fun _ => some 42)).2.1
      "c.laz" rfl rfl,
   (c10_count_points_total none none (fun _ => true) (fun _ => some 42)).1 rfl rfl⟩

/-- `_create_orion_entities` returns normally for every input: all its
fallible collaborator calls sit inside `try/except` blocks. -/
theorem create_orion_entities_ok (job : Option Job) (job_id : String)
    (detected_trees : List DetectedTree) (detect_trees : Bool)
    (layerPost : Except String Nat) (treePost : Nat → Except String Nat) :
    (create_orion_entities job job_id detected_trees detect_trees
      layerPost treePost).2 = Except.ok () := by
  rcases job with _ | j <;> rfl

/-- The single `except` handler of `process`: when it yields error `e`, the
job is marked failed and, for non-empty `e`, the error detail is `e`. -/
theorem pipeline_fail_spec (j : Job) (e' e : String) (now : Nat)
    (h : (pipeline_fail j e' now).2 = Except.error e) :
    (pipeline_fail j e' now).1.status = JobStatus.failed ∧
    (e ≠ "" → (pipeline_fail j e' now).1.error_message = some e) := by
  have he : e' = e := by simpa [pipeline_fail] using h
  subst he
  obtain ⟨h1, -, -, h4, -, -, -⟩ :=
    update_job_status_fields j JobStatus.failed 0 "Pipeline failed" (some e') now
  refine ⟨h1, fun hne => ?_⟩
  show (update_job_status j JobStatus.failed 0 "Pipeline failed"
    (some e') now).error_message = some e'
  rw [h4]
  simp [pyTruthy, hne]

/-- C6 (amended): whenever `process` propagates an exception, the job status
has been set to `failed` first; and whenever the exception's string
representation is non-empty, the job's error detail equals it.  (For an
exception whose `str` is empty — e.g. a bare `MemoryError()` — the
`if error:` guard of `update_job_status` leaves the error detail unchanged,
which is what `c6_counterexample` exhibits against the unamended claim.) -/
theorem c6_failed_error_detail (job : Job) (job_id : String)
    (cfg : PipelineConfig) (o : PipelineOracles) (now : Nat) (e : String)
    (h : (pipeline_process job job_id cfg o now).2 = Except.error e) :
    (pipeline_process job job_id cfg o now).1.status = JobStatus.failed ∧
    (e ≠ "" →
      (pipeline_process job job_id cfg o now).1.error_message = some e) := by
  rcases o with ⟨ing, fus, seg, til, upl, lay, tre, cnt⟩
  by_cases hcol : (cfg.colorize_by = "ndvi" ∧ pyTruthy cfg.ndvi_source_url = true) <;>
  by_cases hdet : cfg.detect_trees = true <;>
  cases ing <;> cases fus <;> cases seg <;> cases til <;> cases upl <;> cases cnt <;>
  simp only [pipeline_process, hcol, hdet, if_true, if_false, ite_true, ite_false,
    create_orion_entities_ok] at h ⊢ <;>
  first
    | exact pipeline_fail_spec _ _ _ _ h
    | exact Except.noConfusion h

/-- Counterexample to C6 as stated: a pipeline failure caused by an exception
whose `str` is empty (e.g. a bare `MemoryError()`) marks the job `failed`
while the error detail stays `None` — the `if error:` guard of
`update_job_status` skips the empty string, so the failed status carries no
error detail. -/
theorem c6_counterexample :
    (pipeline_process exFreshJob "j1" exCfg exOraclesEmptyMsgFail 3).2
      = Except.error "" ∧
    (pipeline_process exFreshJob "j1" exCfg exOraclesEmptyMsgFail 3).1.status
      = JobStatus.failed ∧
    (pipeline_process exFreshJob "j1" exCfg exOraclesEmptyMsgFail 3).1.error_message
      = none :=
  ⟨rfl, rfl, rfl⟩

/-- Witness for the amended C6 at a concrete failing run with message
"boom". -/
theorem c6_witness :
    (pipeline_process exFreshJob "j1" exCfg exOraclesBoomFail 3).1.status
      = JobStatus.failed ∧
    (pipeline_process exFreshJob "j1" exCfg exOraclesBoomFail 3).1.error_message
      = some "boom" :=
  ⟨(c6_failed_error_detail exFreshJob "j1" exCfg exOraclesBoomFail 3 "boom" rfl).1,
   (c6_failed_error_detail exFreshJob "j1" exCfg exOraclesBoomFail 3 "boom" rfl).2
     (by decide)⟩

/-- The result fields of the job after `_finalize_job` and the final
`COMPLETED` status update. -/
theorem completed_job_fields (j : Job) (url : String) (len pc : Nat) (now : Nat) :
    (update_job_status (finalize_job j url len pc) JobStatus.completed 100
      "Processing complete!" none now).status = JobStatus.completed ∧
    (update_job_status (finalize_job j url len pc) JobStatus.completed 100
      "Processing complete!" none now).tileset_url = some url ∧
    (update_job_status (finalize_job j url len pc) JobStatus.completed 100
      "Processing complete!" none now).tree_count = some (len : Int) ∧
    (update_job_status (finalize_job j url len pc) JobStatus.completed 100
      "Processing complete!" none now).point_count = some (pc : Int) := by
  obtain ⟨h1, -, -, -, h5, h6, h7⟩ := update_job_status_fields (finalize_job j url len pc)
    JobStatus.completed 100 "Processing complete!" none now
  exact ⟨h1, by rw [h5]; rfl, by rw [h6]; rfl, by rw [h7]; rfl⟩

/-- C7: a failure of the entity-graph publishing step never fails the job.
`_create_orion_entities` returns normally for every outcome of the HTTP
POSTs, logging each raised error (layer and per-tree); and a run whose phases
succeed reaches `completed` with the result record written, for every outcome
of the entity-graph POSTs. -/
theorem c7_orion_best_effort :
    (∀ (job : Option Job) (job_id : String) (trees : List DetectedTree)
        (det : Bool) (lay : Except String Nat) (tre : Nat → Except String Nat),
      (create_orion_entities job job_id trees det lay tre).2 = Except.ok () ∧
      (∀ msg j, job = some j → lay = Except.error msg →
        OrionLog.layerException msg ∈
          (create_orion_entities job job_id trees det lay tre).1) ∧
      (∀ msg j i, job = some j → det = true → trees ≠ [] →
        i < (trees.take 100).length → tre i = Except.error msg →
        OrionLog.treeException msg ∈
          (create_orion_entities job job_id trees det lay tre).1)) ∧
    (∀ (job : Job) (job_id : String) (cfg : PipelineConfig) (o : PipelineOracles)
        (now : Nat) (trees : List DetectedTree) (url : String) (pc : Nat),
      o.ingest = Except.ok () → o.fusion = Except.ok () →
      o.segmentation = Except.ok trees → o.tiling = Except.ok () →
      o.upload = Except.ok url → o.count = Except.ok pc →
      (pipeline_process job job_id cfg o now).1.status = JobStatus.completed ∧
      (pipeline_process job job_id cfg o now).1.tileset_url = some url ∧
      (pipeline_process job job_id cfg o now).1.tree_count
        = some (((if cfg.detect_trees = true then trees.length else 0) : Nat) : Int) ∧
      (pipeline_process job job_id cfg o now).1.point_count = some (pc : Int) ∧
      (pipeline_process job job_id cfg o now).2
        = Except.ok (url, (if cfg.detect_trees = true then trees.length else 0), pc)) := by
  constructor
  · intro job job_id trees det lay tre
    refine ⟨create_orion_entities_ok job job_id trees det lay tre, ?_, ?_⟩
    · intro msg j hj hlay
      subst hj; subst hlay
      simp [create_orion_entities]
    · intro msg j i hj hdet hne hi htre
      subst hj; subst hdet
      simp only [create_orion_entities]
      rw [List.mem_append]
      right
      rw [if_pos ⟨hne, by trivial⟩, List.mem_flatMap]
      refine ⟨(i, (trees.take 100).get ⟨i, hi⟩), ?_, ?_⟩
      · rw [List.mem_enum_iff_getElem?]
        simpa using List.getElem?_eq_getElem hi
      · rw [htre]
        simp
  · intro job job_id cfg o now trees url pc hing hfus hseg htil hupl hcnt
    rcases o with ⟨ing, fus, seg, til, upl, lay, tre, cnt⟩
    simp only at hing hfus hseg htil hupl hcnt
    subst hing; subst hfus; subst hseg; subst htil; subst hupl; subst hcnt
    by_cases hcol : (cfg.colorize_by = "ndvi" ∧ pyTruthy cfg.ndvi_source_url = true) <;>
    by_cases hdet : cfg.detect_trees = true <;>
    simp only [pipeline_process, hcol, hdet, if_true, if_false, ite_true, ite_false,
      create_orion_entities_ok] <;>
    refine ⟨?_, ?_, ?_, ?_, ?_⟩ <;>
    first
      | exact (completed_job_fields _ url _ pc now).1
      | exact (completed_job_fields _ url _ pc now).2.1
      | exact (completed_job_fields _ url _ pc now).2.2.1
      | exact (completed_job_fields _ url _ pc now).2.2.2
      | rfl
      | trivial

/-- Witness for C7: a concrete successful run in which every entity-graph
POST raises "connection refused" still completes with its result written, and
the raised layer error is logged. -/
theorem c7_witness :
    (pipeline_process exJob "j1" exCfgTrees exOraclesOrionDown 3).1.status
      = JobStatus.completed ∧
    (pipeline_process exJob "j1" exCfgTrees exOraclesOrionDown 3).1.tileset_url
      = some "https://minio/tilesets/j1" ∧
    (pipeline_process exJob "j1" exCfgTrees exOraclesOrionDown 3).1.tree_count
      = some 1 ∧
    (create_orion_entities (some exJob) "j1" [exTree] true
      (Except.error "connection refused") (fun _ => Except.error "connection refused")).2
      = Except.ok () ∧
    OrionLog.layerException "connection refused" ∈
      (create_orion_entities (some exJob) "j1" [exTree] true
        (Except.error "connection refused") (fun _ => Except.error "connection refused")).1 := by
  obtain ⟨hs, hu, ht, -, -⟩ := c7_orion_best_effort.2 exJob "j1" exCfgTrees
    exOraclesOrionDown 3 [exTree] "https://minio/tilesets/j1" 1000 rfl rfl rfl rfl rfl rfl
  obtain ⟨hok, hlog, -⟩ := c7_orion_best_effort.1 (some exJob) "j1" [exTree] true
    (Except.error "connection refused") (fun _ => Except.error "connection refused")
  exact ⟨hs, hu, ht, hok, hlog "connection refused" exJob rfl rfl⟩

/-- C8: when no CHM cell reaches the minimum-height threshold, the
tree-segmentation phase detects zero trees and returns normally (every
function in the model is total), for every smoothing kernel and watershed
collaborator.  The threshold mask zeroes every cell, the smoothed raster is
identically zero, and `peak_local_max` finds no peak above the threshold, so
the tree list is built from an empty coordinate list. -/
theorem c8_below_threshold_no_trees {m n : Nat} (K : Int → Int → ℚ)
    (wshed : (Fin m → Fin n → ℚ) → (Fin m → Fin n → Nat) →
      (Fin m → Fin n → Bool) → Fin m → Fin n → Nat)
    (dsm dtm : Fin m → Fin n → Option ℚ)
    (min_height search_radius chm_resolution ta tc te tf : ℚ)
    (hbelow : ∀ r c, computeCHM dsm dtm r c < min_height) :
    phase_c_detected_trees K wshed (computeCHM dsm dtm) min_height search_radius
      chm_resolution ta tc te tf = [] ∧
    (phase_c_detected_trees K wshed (computeCHM dsm dtm) min_height search_radius
      chm_resolution ta tc te tf).length = 0 := by
  have hmask : (fun r c =>
      if min_height ≤ computeCHM dsm dtm r c then computeCHM dsm dtm r c else 0)
      = (fun (_ : Fin m) (_ : Fin n) => (0 : ℚ)) := by
    funext r c
    rw [if_neg (not_le.mpr (hbelow r c))]
  have hconv : convolve K (fun (_ : Fin m) (_ : Fin n) => (0 : ℚ))
      = fun (_ : Fin m) (_ : Fin n) => (0 : ℚ) := by
    funext r c
    simp [convolve]
  have hpeak : peak_local_max (fun (_ : Fin m) (_ : Fin n) => (0 : ℚ))
      (Int.floor (search_radius / chm_resolution)).toNat min_height = [] := by
    rw [peak_local_max, List.filter_eq_nil_iff]
    intro p hp
    have h0 := computeCHM_nonneg dsm dtm p.1 p.2
    have h1 := hbelow p.1 p.2
    simp only [Bool.and_eq_true, decide_eq_true_eq]
    rintro ⟨hlt, -⟩
    linarith
  have hnil : phase_c_detected_trees K wshed (computeCHM dsm dtm) min_height
      search_radius chm_resolution ta tc te tf = [] := by
    simp only [phase_c_detected_trees]
    rw [hmask, hconv, hpeak]
    rfl
  exact ⟨hnil, by rw [hnil]; rfl⟩

/-- Witness for C8: a flat one-metre canopy below a two-metre threshold on a
concrete 2 × 2 raster pair yields the empty tree list. -/
theorem c8_witness :
    (∀ r c, computeCHM exDsm8 exDtm8 r c < 2) ∧
    phase_c_detected_trees exKernel exWshed (computeCHM exDsm8 exDtm8)
      2 3 (1 / 2) 1 0 (-1) 0 = [] :=
  ⟨by intro r c; norm_num [computeCHM, npSub, npZeroNeg, npNanToZero, exDsm8, exDtm8],
   (c8_below_threshold_no_trees exKernel exWshed exDsm8 exDtm8
     2 3 (1 / 2) 1 0 (-1) 0 (by
       intro r c
       norm_num [computeCHM, npSub, npZeroNeg, npNanToZero, exDsm8, exDtm8])).1⟩

/-- `descNullsLastLE` is total. -/
theorem descNullsLastLE_total {α : Type} [LinearOrder α] (a b : Option α) :
    descNullsLastLE a b = true ∨ descNullsLastLE b a = true := by
  rcases a with _ | x <;> rcases b with _ | y <;> simp [descNullsLastLE]
  exact le_total y x

/-- `descNullsLastLE` is transitive. -/
theorem descNullsLastLE_trans {α : Type} [LinearOrder α] {a b c : Option α}
    (h1 : descNullsLastLE a b = true) (h2 : descNullsLastLE b c = true) :
    descNullsLastLE a c = true := by
  rcases a with _ | x <;> rcases b with _ | y <;> rcases c with _ | z <;>
    simp_all [descNullsLastLE]
  exact le_trans h2 h1

/-- `descNullsLastLE` is antisymmetric. -/
theorem descNullsLastLE_antisymm {α : Type} [LinearOrder α] {a b : Option α}
    (h1 : descNullsLastLE a b = true) (h2 : descNullsLastLE b a = true) :
    a = b := by
  rcases a with _ | x <;> rcases b with _ | y <;> simp_all [descNullsLastLE]
  exact le_antisymm h2 h1

/-- The year/density comparator is total. -/
theorem coverage_le_total (a b : CoverageTile) :
    coverage_le a b = true ∨ coverage_le b a = true := by
  unfold coverage_le
  by_cases h : a.flight_year = b.flight_year
  · rw [if_pos h, if_pos h.symm]
    exact descNullsLastLE_total _ _
  · rw [if_neg h, if_neg (Ne.symm h)]
    exact descNullsLastLE_total _ _

/-- The year/density comparator is transitive. -/
theorem coverage_le_trans (a b c : CoverageTile)
    (h1 : coverage_le a b = true) (h2 : coverage_le b c = true) :
    coverage_le a c = true := by
  unfold coverage_le at h1 h2 ⊢
  by_cases hab : a.flight_year = b.flight_year <;>
    by_cases hbc : b.flight_year = c.flight_year
  · rw [if_pos hab] at h1
    rw [if_pos hbc] at h2
    rw [if_pos (hab.trans hbc)]
    exact descNullsLastLE_trans h1 h2
  · rw [if_neg hbc] at h2
    have hac : a.flight_year ≠ c.flight_year := by rw [hab]; exact hbc
    rw [if_neg hac, hab]
    exact h2
  · rw [if_neg hab] at h1
    have hac : a.flight_year ≠ c.flight_year := by rw [← hbc]; exact hab
    rw [if_neg hac, ← hbc]
    exact h1
  · rw [if_neg hab] at h1
    rw [if_neg hbc] at h2
    have hac : a.flight_year ≠ c.flight_year := by
      intro h
      rw [← h] at h2
      exact hab (descNullsLastLE_antisymm h1 h2)
    rw [if_neg hac]
    exact descNullsLastLE_trans h1 h2

/-- The boolean comparator refines the specification's ordering relation. -/
theorem coverage_le_implies_order (a b : CoverageTile)
    (h : coverage_le a b = true) : coverage_order a b := by
  unfold coverage_le at h
  unfold coverage_order density_order
  rcases ha : a.flight_year with _ | ya <;> rcases hb : b.flight_year with _ | yb <;>
    rw [ha, hb] at h
  · rw [if_pos rfl] at h
    rcases hpa : a.point_density with _ | da <;> rcases hpb : b.point_density with _ | db' <;>
      rw [hpa, hpb] at h <;> simp_all [descNullsLastLE]
  · simp [descNullsLastLE] at h
  · trivial
  · by_cases hy : ya = yb
    · subst hy
      rw [if_pos rfl] at h
      refine Or.inr ⟨rfl, ?_⟩
      rcases hpa : a.point_density with _ | da <;> rcases hpb : b.point_density with _ | db' <;>
        rw [hpa, hpb] at h <;> simp_all [descNullsLastLE]
    · rw [if_neg (by simpa using hy)] at h
      refine Or.inl (lt_of_le_of_ne (by simpa [descNullsLastLE] using h) ?_)
      exact fun heq => hy heq.symm

/-- Membership in a `find_coverage` result: exactly the stored tiles whose
footprint intersects the query, restricted to a truthy source filter. -/
theorem find_coverage_mem (db : List CoverageTile)
    (intersects : String → String → Bool) (geometry_wkt : String)
    (source : Option String) (t : CoverageTile) :
    t ∈ find_coverage db intersects geometry_wkt source ↔
      (t ∈ db ∧ intersects t.geometry geometry_wkt = true ∧
        ∀ s, source = some s → s ≠ "" → t.source = s) := by
  unfold find_coverage
  rw [List.mem_mergeSort]
  rcases source with _ | s
  · simp [List.mem_filter, and_assoc]
  · by_cases hs : s = ""
    · subst hs
      simp [List.mem_filter, and_assoc]
    · simp [hs, List.mem_filter, and_assoc]
      tauto

/-- Every `find_coverage` result is sorted by the specification's ordering:
year descending with nulls last, then density descending with nulls last. -/
theorem find_coverage_sorted (db : List CoverageTile)
    (intersects : String → String → Bool) (geometry_wkt : String)
    (source : Option String) :
    (find_coverage db intersects geometry_wkt source).Pairwise coverage_order := by
  unfold find_coverage
  exact (List.sorted_mergeSort coverage_le_trans
    (fun a b => Bool.or_eq_true .. |>.mpr (coverage_le_total a b)) _).imp
    (fun h => coverage_le_implies_order _ _ h)

/-- C3 (amended): `find_coverage` returns exactly the stored tiles whose
footprint intersects the query — restricted to the source filter when a
non-empty label is supplied; a supplied empty-string filter is treated by
`if source:` as absent and does not restrict (see `c3_counterexample`) —
ordered by flight year descending with nulls last, then point density
descending with nulls last; and `has_coverage` is true iff the unrestricted
result is non-empty. -/
theorem c3_find_coverage_spec (db : List CoverageTile)
    (intersects : String → String → Bool) (geometry_wkt : String)
    (source : Option String) :
    (∀ t, t ∈ find_coverage db intersects geometry_wkt source ↔
      (t ∈ db ∧ intersects t.geometry geometry_wkt = true ∧
        ∀ s, source = some s → s ≠ "" → t.source = s)) ∧
    (find_coverage db intersects geometry_wkt source).Pairwise coverage_order ∧
    (has_coverage db intersects geometry_wkt = true ↔
      find_coverage db intersects geometry_wkt none ≠ []) := by
  refine ⟨fun t => find_coverage_mem db intersects geometry_wkt source t,
    find_coverage_sorted db intersects geometry_wkt source, ?_⟩
  unfold has_coverage
  simp [List.length_pos]

/-- Counterexample to C3 as stated: with the source filter `some ""`
supplied, the result is not restricted to tiles of source `""` — the
`if source:` truthiness test skips the filter for the empty string, so a tile
of source "PNOA" is returned. -/
theorem c3_counterexample :
    exTileA ∈ find_coverage [exTileA] exIntersectsAll "QUERY" (some "") ∧
    exTileA.source ≠ "" := by
  constructor
  · exact (find_coverage_mem [exTileA] exIntersectsAll "QUERY" (some "") exTileA).mpr
      ⟨by simp, rfl, by intro s hs hne; cases hs; exact absurd rfl hne⟩
  · decide

/-- Witness for C3 at concrete inputs: membership, sortedness and the
`has_coverage` equivalence at a two-tile table. -/
theorem c3_witness :
    exTileA ∈ find_coverage [exTileA] exIntersectsAll "QUERY" none ∧
    (find_coverage [exTileA, exTileB] exIntersectsAll "QUERY" none).Pairwise
      coverage_order ∧
    has_coverage [exTileA] exIntersectsAll "QUERY" = true := by
  have hmem := (c3_find_coverage_spec [exTileA] exIntersectsAll "QUERY" none).1
    exTileA |>.mpr ⟨by simp, rfl, by simp⟩
  refine ⟨hmem, (c3_find_coverage_spec [exTileA, exTileB] exIntersectsAll "QUERY" none).2.1,
    (c3_find_coverage_spec [exTileA] exIntersectsAll "QUERY" none).2.2.mpr ?_⟩
  exact List.ne_nil_of_mem hmem

/-- C4 (amended): for every non-empty preferred source label `X`,
`get_best_tile` returns the head of the `X`-restricted coverage list when
that list is non-empty, falls back to the head of the unrestricted list when
no tile of source `X` intersects, and returns `none` exactly when no stored
tile intersects the area at all.  (For `X = ""` the restriction is skipped;
see `c4_counterexample`.) -/
theorem c4_best_tile_spec (db : List CoverageTile)
    (intersects : String → String → Bool) (geometry_wkt : String) (X : String)
    (hX : X ≠ "") :
    (find_coverage db intersects geometry_wkt (some X) ≠ [] →
      get_best_tile db intersects geometry_wkt (some X)
        = (find_coverage db intersects geometry_wkt (some X)).head?) ∧
    ((∀ t ∈ db, ¬(intersects t.geometry geometry_wkt = true ∧ t.source = X)) →
      get_best_tile db intersects geometry_wkt (some X)
        = (find_coverage db intersects geometry_wkt none).head?) ∧
    (get_best_tile db intersects geometry_wkt (some X) = none ↔
      ∀ t ∈ db, intersects t.geometry geometry_wkt = false) := by
  have hrestrict_nil : (∀ t ∈ db, ¬(intersects t.geometry geometry_wkt = true ∧
      t.source = X)) ↔ find_coverage db intersects geometry_wkt (some X) = [] := by
    rw [List.eq_nil_iff_forall_not_mem]
    constructor
    · intro h t hmem
      obtain ⟨ht, hint, hsrc⟩ :=
        (find_coverage_mem db intersects geometry_wkt (some X) t).mp hmem
      exact h t ht ⟨hint, hsrc X rfl hX⟩
    · intro h t ht ⟨hint, hsrc⟩
      exact h t ((find_coverage_mem db intersects geometry_wkt (some X) t).mpr
        ⟨ht, hint, fun s hs _ => by cases hs; exact hsrc⟩)
  have hunres_nil : find_coverage db intersects geometry_wkt none = [] ↔
      ∀ t ∈ db, intersects t.geometry geometry_wkt = false := by
    rw [List.eq_nil_iff_forall_not_mem]
    constructor
    · intro h t ht
      by_contra hcon
      exact h t ((find_coverage_mem db intersects geometry_wkt none t).mpr
        ⟨ht, by simpa using hcon, by simp⟩)
    · intro h t hmem
      obtain ⟨ht, hint, -⟩ :=
        (find_coverage_mem db intersects geometry_wkt none t).mp hmem
      rw [h t ht] at hint
      exact Bool.noConfusion hint
  refine ⟨?_, ?_, ?_⟩
  · intro hne
    simp only [get_best_tile]
    rw [if_neg]
    rintro ⟨hempty, -⟩
    exact hne (List.isEmpty_iff.mp hempty)
  · intro hnone
    simp only [get_best_tile]
    rw [if_pos ⟨List.isEmpty_iff.mpr (hrestrict_nil.mp hnone), by simp [pyTruthy, hX]⟩]
  · simp only [get_best_tile]
    by_cases hres : find_coverage db intersects geometry_wkt (some X) = []
    · rw [if_pos ⟨List.isEmpty_iff.mpr hres, by simp [pyTruthy, hX]⟩]
      rw [List.head?_eq_none_iff]
      exact hunres_nil
    · rw [if_neg (fun hc => hres (List.isEmpty_iff.mp hc.1))]
      rw [List.head?_eq_none_iff]
      constructor
      · intro h
        exact absurd h hres
      · intro h
        obtain ⟨t, hmem⟩ := List.exists_mem_of_ne_nil _ hres
        obtain ⟨ht, hint, -⟩ :=
          (find_coverage_mem db intersects geometry_wkt (some X) t).mp hmem
        rw [h t ht] at hint
        exact absurd hint (by simp)

/-- Counterexample to C4 as stated: with the preferred source `""`, the list
restricted to source `""` is the non-empty `[exTileB]`, yet `get_best_tile`
returns `exTileA` — the head of the unrestricted list — because the
`if source:` truthiness test never applies the empty-string restriction. -/
theorem c4_counterexample :
    (find_coverage [exTileA, exTileB] exIntersectsAll "QUERY" none).filter
      (fun t => t.source == "") = [exTileB] ∧
    get_best_tile [exTileA, exTileB] exIntersectsAll "QUERY" (some "")
      = some exTileA ∧
    exTileA.source ≠ "" := by
  refine ⟨?_, ?_, by decide⟩
  · simp [find_coverage, exIntersectsAll, List.mergeSort, List.merge, coverage_le,
      descNullsLastLE, exTileA, exTileB]
  · simp [get_best_tile, find_coverage, exIntersectsAll, List.mergeSort, List.merge,
      coverage_le, descNullsLastLE, exTileA, exTileB, pyTruthy]

/-- Witness for the amended C4 at concrete inputs: a non-empty restricted
list, the fallback case, and the no-coverage case. -/
theorem c4_witness :
    get_best_tile [exTileA] exIntersectsAll "QUERY" (some "PNOA")
      = (find_coverage [exTileA] exIntersectsAll "QUERY" (some "PNOA")).head? ∧
    get_best_tile [exTileB] exIntersectsAll "QUERY" (some "PNOA")
      = (find_coverage [exTileB] exIntersectsAll "QUERY" none).head? ∧
    get_best_tile [] exIntersectsAll "QUERY" (some "PNOA") = none := by
  obtain ⟨h1, -, -⟩ := c4_best_tile_spec [exTileA] exIntersectsAll "QUERY" "PNOA"
    (by decide)
  obtain ⟨-, h2, -⟩ := c4_best_tile_spec [exTileB] exIntersectsAll "QUERY" "PNOA"
    (by decide)
  obtain ⟨-, -, h3⟩ := c4_best_tile_spec [] exIntersectsAll "QUERY" "PNOA"
    (by decide)
  refine ⟨h1 ?_, h2 ?_, h3.mpr ?_⟩
  · exact List.ne_nil_of_mem
      ((find_coverage_mem [exTileA] exIntersectsAll "QUERY" (some "PNOA") exTileA).mpr
        ⟨by simp, rfl, fun s hs _ => by cases hs; rfl⟩)
  · intro t ht
    simp only [List.mem_singleton] at ht
    subst ht
    rintro ⟨-, hsrc⟩
    exact absurd hsrc (by decide)
  · intro t ht
    simp at ht

/-- `total_access` over a cons cell. -/
theorem total_access_cons (r : CacheRow) (l : List CacheRow) (n : String) :
    total_access (r :: l) n
      = (if r.tile_name = n then r.access_count else 0) + total_access l n := by
  unfold total_access
  by_cases h : r.tile_name = n <;> simp [List.filter_cons, h]

/-- A cache lookup that misses leaves the table unchanged and certifies that
no complete row of that name exists. -/
theorem get_cached_tile_none (db : List CacheRow) (name : String)
    (h : (get_cached_tile db name).2 = none) :
    (get_cached_tile db name).1 = db ∧
    ∀ r ∈ db, ¬(r.tile_name = name ∧ r.is_complete = "complete") := by
  induction db with
  | nil => exact ⟨rfl, by simp⟩
  | cons r rs ih =>
    simp only [get_cached_tile] at h ⊢
    by_cases hr : r.tile_name = name ∧ r.is_complete = "complete"
    · rw [if_pos hr] at h
      exact absurd h (by simp)
    · rw [if_neg hr] at h ⊢
      obtain ⟨h1, h2⟩ := ih h
      refine ⟨by rw [h1], ?_⟩
      intro x hx
      rcases List.mem_cons.mp hx with rfl | hx'
      · exact hr
      · exact h2 x hx'

/-- A table whose rows of the given name are all `failed` yields a miss, with
the table unchanged. -/
theorem get_cached_tile_miss (db : List CacheRow) (name : String)
    (h : ∀ r ∈ db, r.tile_name = name → r.is_complete = "failed") :
    get_cached_tile db name = (db, none) := by
  induction db with
  | nil => rfl
  | cons r rs ih =>
    have hr : ¬(r.tile_name = name ∧ r.is_complete = "complete") := by
      rintro ⟨hn, hc⟩
      exact absurd (hc.symm.trans (h r (List.mem_cons_self r rs) hn)) (by decide)
    simp only [get_cached_tile]
    rw [if_neg hr, ih fun x hx hn => h x (List.mem_cons_of_mem r hx) hn]

/-- A table containing a complete row of the given name yields a hit. -/
theorem get_cached_tile_hit (db : List CacheRow) (name : String)
    (hex : ∃ r ∈ db, r.tile_name = name ∧ r.is_complete = "complete") :
    ∃ e, (get_cached_tile db name).2 = some e := by
  induction db with
  | nil => simp at hex
  | cons r rs ih =>
    simp only [get_cached_tile]
    by_cases hr : r.tile_name = name ∧ r.is_complete = "complete"
    · rw [if_pos hr]
      exact ⟨_, rfl⟩
    · rw [if_neg hr]
      obtain ⟨x, hx, hprop⟩ := hex
      rcases List.mem_cons.mp hx with rfl | hx'
      · exact absurd hprop hr
      · exact ih ⟨x, hx', hprop⟩

/-- A cache hit bumps the total access count of that identity by exactly one
and keeps a complete row of that identity in the table. -/
theorem get_cached_tile_bump (db : List CacheRow) (name : String) (e : CacheRow)
    (h : (get_cached_tile db name).2 = some e) :
    total_access (get_cached_tile db name).1 name = total_access db name + 1 ∧
    ∃ r ∈ (get_cached_tile db name).1,
      r.tile_name = name ∧ r.is_complete = "complete" := by
  induction db with
  | nil => simp [get_cached_tile] at h
  | cons r rs ih =>
    simp only [get_cached_tile] at h ⊢
    by_cases hr : r.tile_name = name ∧ r.is_complete = "complete"
    · rw [if_pos hr] at h ⊢
      constructor
      · rw [total_access_cons, total_access_cons]
        have hn : ({ r with access_count := r.access_count + 1 } : CacheRow).tile_name
            = name := hr.1
        rw [if_pos hn, if_pos hr.1]
        dsimp only
        omega
      · exact ⟨{ r with access_count := r.access_count + 1 },
          List.mem_cons_self .., hr.1, hr.2⟩
    · rw [if_neg hr] at h ⊢
      obtain ⟨ih1, ih2⟩ := ih h
      constructor
      · rw [total_access_cons, total_access_cons, ih1]
        omega
      · obtain ⟨x, hx, hp⟩ := ih2
        exact ⟨x, List.mem_cons_of_mem _ hx, hp⟩

/-- The miss path of `get_or_download_tile` delegates to
`download_and_cache_tile`. -/
theorem get_or_download_miss (db : List CacheRow) (url wd : String)
    (cd : Except String Unit) (od : Except String Nat) (cu : Except String Unit)
    (hq : (get_cached_tile db (extract_tile_name url)).2 = none) :
    get_or_download_tile db url wd cd od cu
      = ((download_and_cache_tile (get_cached_tile db (extract_tile_name url)).1
            url wd od cu).1,
         (download_and_cache_tile (get_cached_tile db (extract_tile_name url)).1
            url wd od cu).2.1,
         ((download_and_cache_tile (get_cached_tile db (extract_tile_name url)).1
            url wd od cu).2.2).map Prod.fst) := by
  simp only [get_or_download_tile, hq]

/-- The hit path of `get_or_download_tile` fetches the cached object and never
touches the origin. -/
theorem get_or_download_hit (db : List CacheRow) (url wd : String)
    (cd : Except String Unit) (od : Except String Nat) (cu : Except String Unit)
    (e : CacheRow) (hq : (get_cached_tile db (extract_tile_name url)).2 = some e) :
    get_or_download_tile db url wd cd od cu
      = ((get_cached_tile db (extract_tile_name url)).1,
         [CacheEvent.cacheDownload e.minio_bucket e.minio_key],
         cd.map fun _ => wd ++ "/" ++ e.tile_name ++ ".laz") := by
  simp only [get_or_download_tile, get_tile_local_path, hq]

/-- C2: resolving the same locator again after a successful resolution takes
the cache-hit path — the identity's total access count grows by exactly one
and no origin download is attempted — and when every recorded row for the
derived identity is in state `failed`, a resolution with succeeding transfers
proceeds as a fresh miss: origin download, cache upload, and a new `complete`
record appended. -/
theorem c2_tile_cache_hit_and_retry :
    (∀ (db : List CacheRow) (url wd1 wd2 path : String)
        (cd1 cd2 cu1 cu2 : Except String Unit) (od1 od2 : Except String Nat),
      (get_or_download_tile db url wd1 cd1 od1 cu1).2.2 = Except.ok path →
      total_access (get_or_download_tile
          (get_or_download_tile db url wd1 cd1 od1 cu1).1
          url wd2 cd2 od2 cu2).1 (extract_tile_name url)
        = total_access (get_or_download_tile db url wd1 cd1 od1 cu1).1
            (extract_tile_name url) + 1 ∧
      (∀ u, CacheEvent.originDownload u ∉
        (get_or_download_tile (get_or_download_tile db url wd1 cd1 od1 cu1).1
          url wd2 cd2 od2 cu2).2.1)) ∧
    (∀ (db : List CacheRow) (url wd : String) (cd : Except String Unit) (size : Nat),
      (∀ r ∈ db, r.tile_name = extract_tile_name url → r.is_complete = "failed") →
      get_or_download_tile db url wd cd (Except.ok size) (Except.ok ())
        = (db ++ [freshCompleteRow url size],
           [CacheEvent.originDownload url,
            CacheEvent.cacheUpload "lidar-source-tiles"
              (extract_tile_name url ++ ".laz")],
           Except.ok (wd ++ "/" ++ extract_tile_name url ++ ".laz"))) := by
  constructor
  · intro db url wd1 wd2 path cd1 cd2 cu1 cu2 od1 od2 h
    have hcomp : ∃ r ∈ (get_or_download_tile db url wd1 cd1 od1 cu1).1,
        r.tile_name = extract_tile_name url ∧ r.is_complete = "complete" := by
      rcases hq : (get_cached_tile db (extract_tile_name url)).2 with _ | e
      · rw [get_or_download_miss db url wd1 cd1 od1 cu1 hq] at h ⊢
        rcases od1 with e1 | size
        · simp [download_and_cache_tile, Except.map] at h
        · rcases cu1 with e2 | u2
          · simp [download_and_cache_tile, Except.map] at h
          · refine ⟨freshCompleteRow url size, ?_, rfl, rfl⟩
            simp [download_and_cache_tile, freshCompleteRow]
      · rw [get_or_download_hit db url wd1 cd1 od1 cu1 e hq]
        exact (get_cached_tile_bump db (extract_tile_name url) e hq).2
    obtain ⟨e2, hq2⟩ := get_cached_tile_hit
      (get_or_download_tile db url wd1 cd1 od1 cu1).1 (extract_tile_name url) hcomp
    rw [get_or_download_hit (get_or_download_tile db url wd1 cd1 od1 cu1).1
      url wd2 cd2 od2 cu2 e2 hq2]
    refine ⟨(get_cached_tile_bump _ _ e2 hq2).1, ?_⟩
    intro u
    simp
  · intro db url wd cd size hall
    rw [get_or_download_miss db url wd cd (Except.ok size) (Except.ok ())
      (by rw [get_cached_tile_miss db (extract_tile_name url) hall])]
    rw [get_cached_tile_miss db (extract_tile_name url) hall]
    simp [download_and_cache_tile, freshCompleteRow, Except.map]

/-- Witness for C2 at a concrete locator: a fresh miss resolution on the
empty table followed by a second resolution (access count bumps by one, no
origin download), and a fresh-miss retry over a table holding only a
`failed` row. -/
theorem c2_witness :
    (total_access (get_or_download_tile
        (get_or_download_tile [] "https://host/PNOA_2023_NAV_0001.laz" "w1"
          (Except.ok ()) (Except.ok 100) (Except.ok ())).1
        "https://host/PNOA_2023_NAV_0001.laz" "w2" (Except.ok ()) (Except.ok 100)
        (Except.ok ())).1 (extract_tile_name "https://host/PNOA_2023_NAV_0001.laz")
      = total_access (get_or_download_tile [] "https://host/PNOA_2023_NAV_0001.laz"
          "w1" (Except.ok ()) (Except.ok 100) (Except.ok ())).1
          (extract_tile_name "https://host/PNOA_2023_NAV_0001.laz") + 1 ∧
     ∀ u, CacheEvent.originDownload u ∉
       (get_or_download_tile
         (get_or_download_tile [] "https://host/PNOA_2023_NAV_0001.laz" "w1"
           (Except.ok ()) (Except.ok 100) (Except.ok ())).1
         "https://host/PNOA_2023_NAV_0001.laz" "w2" (Except.ok ()) (Except.ok 100)
         (Except.ok ())).2.1) ∧
    get_or_download_tile [exFailedRow] "https://host/PNOA_2023_NAV_0001.laz" "w3"
        (Except.ok ()) (Except.ok 77) (Except.ok ())
      = ([exFailedRow] ++ [freshCompleteRow "https://host/PNOA_2023_NAV_0001.laz" 77],
         [CacheEvent.originDownload "https://host/PNOA_2023_NAV_0001.laz",
          CacheEvent.cacheUpload "lidar-source-tiles" "PNOA_2023_NAV_0001.laz"],
         Except.ok "w3/PNOA_2023_NAV_0001.laz") ∧
    (freshCompleteRow "https://host/PNOA_2023_NAV_0001.laz" 77).is_complete
      = "complete" ∧
    (freshCompleteRow "https://host/PNOA_2023_NAV_0001.laz" 77).tile_name
      = "PNOA_2023_NAV_0001" := by
  obtain ⟨h1, h2⟩ := c2_tile_cache_hit_and_retry.1 [] "https://host/PNOA_2023_NAV_0001.laz"
    "w1" "w2" "w1/PNOA_2023_NAV_0001.laz" (Except.ok ()) (Except.ok ()) (Except.ok ())
    (Except.ok ()) (Except.ok 100) (Except.ok 100) rfl
  have h3 := c2_tile_cache_hit_and_retry.2 [exFailedRow]
    "https://host/PNOA_2023_NAV_0001.laz" "w3" (Except.ok ()) 77 (by decide)
  exact ⟨⟨h1, h2⟩, by rw [h3]; rfl, by decide, by decide⟩
